import Mathlib

/-!
Verification of the slide-navigation and view-composition core of the
crypto dashboard (src/app.py), together with its file-selection utility.

Modelling conventions:
* Python `int` is `Int`; Python `%` on a positive modulus agrees with `Int.emod`.
* A pandas `historical_df` row is `HistRow`; numeric cells are abstracted to
  `Int` because the dashboard core only ever filters rows on the `id` column
  and passes the cells through to plotly unchanged.
* A plotly figure is `Fig`: a value recording which `px` call built it and the
  column arguments it received.  The figures built once at module load are
  never inspected by the callbacks, only passed through; the `px.line` figures
  built inside `update_slide` additionally carry the filtered dataframe, since
  the properties under study inspect them.
* `dash.no_update` is `none`; a Python exception escaping a function is
  `none` / `Except.error`.
* Python strings manipulated character-wise (the pattern-matching nav-link
  ids) are `List Char`; `pySplitOn`, `pyStartsWith` and `pyInt?` model
  `str.split`, `str.startswith` and `int(...)` on such strings (`int` only on
  the plain digit strings occurring here; other accepted forms never arise).
-/

/-- One row of `historical_df`: columns id, timestamp, price, market_cap,
total_volume, ath (compare scrape/update code; the timestamp and numeric
columns are abstracted to `Int`, the core never computes with them). -/
structure HistRow where
  id : String
  timestamp : Int
  price : Int
  market_cap : Int
  total_volume : Int
  ath : Int
deriving DecidableEq, Repr

/-- A plotly figure as constructed by the `px` calls in app.py, identified by
the call and its column arguments.  `pxLine` is the parametric figure built
inside `update_slide`; it carries the dataframe it is built from. -/
inductive Fig where
  | pxHistogram (x : String) (nbins : Nat)
  | pxScatter (x y color : String)
  | pxBar (x y : String)
  | pxPie (names values : String)
  | pxImshow (values : String)
  | pxLineColored (x y color : String)
  | pxLine (df : List HistRow) (x y : String) (title : String)
deriving DecidableEq, Repr

/-- One entry of the slide catalog: the question title and the chart built at
module load (`None` in the source for the three parametric slides). -/
structure SlideDef where
  title : String
  fig : Option Fig
deriving DecidableEq, Repr

/-- The slide catalog `chart_items` (app.py lines 126-152), in source order.
Entries 7, 8 and 9 are `("Price Over Time", None)`, `("Market Cap Over Time",
None)` and `("Volume Over Time", None)`; the rest carry a precomputed chart. -/
def chart_items : List SlideDef :=
  [ ⟨"Market Cap Distribution", some (Fig.pxHistogram "market_cap" 50)⟩,
    ⟨"Current Price Distribution", some (Fig.pxHistogram "current_price" 50)⟩,
    ⟨"Market Cap vs Volume", some (Fig.pxScatter "market_cap" "total_volume" "id")⟩,
    ⟨"Price Change % in 24h", some (Fig.pxHistogram "price_change_percentage_24h" 50)⟩,
    ⟨"Market Cap vs Price Change %", some (Fig.pxScatter "market_cap" "price_change_percentage_24h" "id")⟩,
    ⟨"Top 10 Most Traded", some (Fig.pxBar "id" "total_volume")⟩,
    ⟨"Top 10 vs Rest", some (Fig.pxPie "category" "market_cap")⟩,
    ⟨"Price Over Time", none⟩,
    ⟨"Market Cap Over Time", none⟩,
    ⟨"Volume Over Time", none⟩,
    ⟨"Market Cap vs Price", some (Fig.pxScatter "price" "market_cap" "id")⟩,
    ⟨"Correlation Between Crypto Prices", some (Fig.pxImshow "price")⟩,
    ⟨"How far are current price of coins from their ATH", some (Fig.pxBar "id" "current_vs_ath")⟩,
    ⟨"Market Cap of BTC vs Other Cryptos", some (Fig.pxLineColored "timestamp" "mcap_pct_btc" "id")⟩,
    ⟨"Price of BTC vs Other Cryptos", some (Fig.pxLineColored "timestamp" "price_pct_btc" "id")⟩ ]

/-- Python `s.split(sep)` for a one-character separator, on the character
list of the string: splits at every occurrence, keeping empty pieces. -/
def pySplitOn (sep : Char) : List Char → List (List Char)
  | [] => [[]]
  | c :: cs =>
    match pySplitOn sep cs with
    | [] => [[]]
    | r :: rs => if c = sep then [] :: r :: rs else (c :: r) :: rs

/-- Python `s.startswith(pre)` on character lists. -/
def pyStartsWith (pre s : List Char) : Bool :=
  pre.isPrefixOf s

/-- Value of a decimal digit character, `none` for a non-digit. -/
def pyDigit? (c : Char) : Option Nat :=
  if '0' ≤ c ∧ c ≤ '9' then some (c.toNat - '0'.toNat) else none

/-- Accumulating helper for `pyInt?`. -/
def pyIntAux (acc : Nat) : List Char → Option Nat
  | [] => some acc
  | c :: cs =>
    match pyDigit? c with
    | some d => pyIntAux (10 * acc + d) cs
    | none => none

/-- Python `int(s)` restricted to non-empty plain decimal digit strings; on
anything else (in particular `int("")`) Python raises ValueError, modelled as
`none`.  The nav-link ids decoded here are always plain digit strings. -/
def pyInt? : List Char → Option Nat
  | [] => none
  | c :: cs => pyIntAux 0 (c :: cs)

/-- Decimal digit character, mirroring how Python formats one digit. -/
def digitChar (d : Nat) : Char :=
  match d with
  | 0 => '0'
  | 1 => '1'
  | 2 => '2'
  | 3 => '3'
  | 4 => '4'
  | 5 => '5'
  | 6 => '6'
  | 7 => '7'
  | 8 => '8'
  | _ => '9'

/-- Fuel-driven helper for `natChars` (the fuel `n + 1` always suffices). -/
def natCharsAux : Nat → Nat → List Char → List Char
  | 0, _, acc => acc
  | fuel + 1, n, acc =>
    if n < 10 then digitChar n :: acc
    else natCharsAux fuel (n / 10) (digitChar (n % 10) :: acc)

/-- Decimal rendering of a natural number, as Python's `f"{i}"` produces. -/
def natChars (n : Nat) : List Char :=
  natCharsAux (n + 1) n []

/-- The `index` strings of the realtime nav links (app.py lines 167-170):
`f"rt-{i}"` for `i` ranging over `enumerate(chart_items[:7])`. -/
def realtime_link_ids : List (List Char) :=
  (List.range (chart_items.take 7).length).map (fun i => ['r', 't', '-'] ++ natChars i)

/-- The `index` strings of the historical nav links (app.py lines 172-175):
`f"his-{i}"` for `i` ranging over `enumerate(chart_items[7:])`. -/
def historical_link_ids : List (List Char) :=
  (List.range (chart_items.drop 7).length).map (fun i => ['h', 'i', 's', '-'] ++ natChars i)

/-- All nav-link ids the sidebar menu can deliver. -/
def all_link_ids : List (List Char) :=
  realtime_link_ids ++ historical_link_ids

/-- The `set_slide` callback (app.py lines 276-289).  `triggered` is the
`index` field of `ctx.triggered_id` (`none` when no pattern-matching input
triggered).  Returns the new value of the `slide-index` store, `none` for
`dash.no_update`; a ValueError from `int(...)` on a malformed id (which the
generated menu never produces) is also `none`. -/
def set_slide (triggered : Option (List Char)) : Option Nat :=
  match triggered with
  | none => none
  | some full_index =>
    if pyStartsWith ['r', 't', '-'] full_index then
      match pySplitOn '-' full_index with
      | _ :: second :: _ => pyInt? second
      | _ => none
    else if pyStartsWith ['h', 'i', 's', '-'] full_index then
      match pySplitOn '-' full_index with
      | _ :: second :: _ => (pyInt? second).map (fun i => 7 + i)
      | _ => none
    else none

/-- The `change_slide` callback (app.py lines 291-303).  `triggered` is
`ctx.triggered_id`.  The source takes the modulus by `len(chart_items)`; the
definition is stated over the catalog whose length that is, so that the
specification's length-10 scenario is also expressible; the app itself always
passes `chart_items`. -/
def change_slide (catalog : List SlideDef) (triggered : Option String) (current_idx : Int) : Int :=
  if triggered = some "prev-btn" then (current_idx - 1) % (catalog.length : Int)
  else if triggered = some "next-btn" then (current_idx + 1) % (catalog.length : Int)
  else current_idx

/-- The `update_slide` callback (app.py lines 305-325).  Returns
`(question-title, figure, selector-visible)`; the third component models
whether the coin dropdown component is returned (`dropdown`) or `None`.
`none` overall models the IndexError Python raises when `idx` is out of range
of `chart_items` (never reachable from the stores). -/
def update_slide (historical_df : List HistRow) (idx : Nat) (coin : String) :
    Option (String × Option Fig × Bool) :=
  match chart_items[idx]? with
  | none => none
  | some slide =>
    let question := slide.title
    let fig := slide.fig
    let show_dropdown := ([7, 8, 9] : List Nat).contains idx
    let fig :=
      if show_dropdown then
        let df := historical_df.filter (fun r => r.id == coin)
        if idx = 7 then
          some (Fig.pxLine df "timestamp" "price" (coin ++ " Price Over Time"))
        else if idx = 8 then
          some (Fig.pxLine df "timestamp" "market_cap" (coin ++ " Market Cap Over Time"))
        else if idx = 9 then
          some (Fig.pxLine df "timestamp" "total_volume" (coin ++ " Volume Over Time"))
        else fig
      else fig
    some (question, fig, show_dropdown)

/-- The `update_coin` callback (app.py lines 327-333):
`return val if val else dash.no_update`.  The empty string is the only falsy
string; `none` models `dash.no_update`. -/
def update_coin (val : String) : Option String :=
  if val = "" then none else some val

/-- Effect of one `update_coin` callback invocation on the `selected-coin`
store: `dash.no_update` keeps the current value. -/
def apply_coin_event (current val : String) : String :=
  match update_coin val with
  | some v => v
  | none => current

/-- The `toggle_sidebar` callback (app.py lines 248-255): ignores the click
count and returns the negation of the stored value. -/
def toggle_sidebar (n : Nat) (current : Bool) : Bool :=
  !current

/-- The events that can change the `slide-index` store: the two buttons
handled by `change_slide` and a sidebar nav-link click handled by
`set_slide`. -/
inductive NavEvent where
  | prevClick
  | nextClick
  | menuClick (full_index : List Char)
deriving DecidableEq

/-- Effect of one event on the `slide-index` store (`dash.no_update` keeps
the stored value). -/
def nav_apply (idx : Int) : NavEvent → Int
  | NavEvent.prevClick => change_slide chart_items (some "prev-btn") idx
  | NavEvent.nextClick => change_slide chart_items (some "next-btn") idx
  | NavEvent.menuClick full_index =>
    match set_slide (some full_index) with
    | some j => (j : Int)
    | none => idx

/-- The `slide-index` store after a sequence of events, starting from its
initial value `data=0` (app.py line 229). -/
def run_events (evs : List NavEvent) : Int :=
  evs.foldl nav_apply 0

/-- An event the running app can deliver: a button click, or a menu click on
one of the nav links the sidebar was actually built with. -/
def valid_event : NavEvent → Bool
  | NavEvent.menuClick full_index => all_link_ids.contains full_index
  | _ => true

/-- The `get_latest_file` utility (app.py lines 13-17).  `glob.glob` and
`os.path.getmtime` are OS calls: the glob result enters as the list `files`
and the filesystem's modification times as `mtime` (only compared, so
abstracted to `Int`).  `Except.error` carries the FileNotFoundError message;
`max(files, key=...)` keeps the first element on ties and replaces the
running maximum only on a strictly greater key. -/
def get_latest_file (path_pattern : String) (files : List String) (mtime : String → Int) :
    Except String String :=
  match files with
  | [] => Except.error ("No files found for pattern: " ++ path_pattern)
  | f :: fs => Except.ok (fs.foldl (fun best y => if mtime best < mtime y then y else best) f)

/-- A key step fact: adding the catalog length to the argument of the modulus
does not change a Python-style remainder. -/
lemma emod_add_len (a n : Int) : (a + n) % n = a % n := by
  rw [show a + n = a + n * 1 by ring, Int.add_mul_emod_self_left]

/-- Subtracting the catalog length likewise does not change the remainder. -/
lemma emod_sub_len (a n : Int) : (a - n) % n = a % n := by
  have h : a - n = a + n * (-1) := by ring
  rw [h, Int.add_mul_emod_self_left]

/-- C1: for a catalog of positive length N and a current slide index in
[0, N), the prev and next buttons set the index to
(slideIndex + direction + N) mod N with direction -1 resp. +1; concretely, on
a catalog of length 10, next at index 9 yields 0 and prev at index 0 yields 9. -/
theorem change_slide_wraps (catalog : List SlideDef) (idx : Int)
    (hlen : 0 < catalog.length) (h0 : 0 ≤ idx) (hN : idx < (catalog.length : Int)) :
    change_slide catalog (some "prev-btn") idx
      = (idx + (-1) + (catalog.length : Int)) % (catalog.length : Int) ∧
    change_slide catalog (some "next-btn") idx
      = (idx + 1 + (catalog.length : Int)) % (catalog.length : Int) ∧
    change_slide (chart_items.take 10) (some "next-btn") 9 = 0 ∧
    change_slide (chart_items.take 10) (some "prev-btn") 0 = 9 := by
  have hne : (some "next-btn" : Option String) ≠ some "prev-btn" := by decide
  refine ⟨?_, ?_, by decide, by decide⟩
  · rw [change_slide, if_pos rfl, emod_add_len]
    rfl
  · rw [change_slide, if_neg hne, if_pos rfl, emod_add_len]

/-- Pressing next k times from a reduced index lands on the reduced shifted
index. -/
lemma iterate_next (catalog : List SlideDef) : ∀ (k : Nat) (j : Int),
    (change_slide catalog (some "next-btn"))^[k] (j % (catalog.length : Int))
      = (j + k) % (catalog.length : Int) := by
  intro k
  induction k with
  | zero => intro j; simp
  | succ k ih =>
      intro j
      have hne : (some "next-btn" : Option String) ≠ some "prev-btn" := by decide
      rw [Function.iterate_succ_apply]
      have hstep : change_slide catalog (some "next-btn") (j % (catalog.length : Int))
          = ((j + 1) % (catalog.length : Int)) := by
        rw [change_slide, if_neg hne, if_pos rfl, Int.emod_add_emod]
      rw [hstep, ih (j + 1)]
      congr 1
      push_cast
      ring

/-- Pressing prev k times from a reduced index lands on the reduced shifted
index. -/
lemma iterate_prev (catalog : List SlideDef) : ∀ (k : Nat) (j : Int),
    (change_slide catalog (some "prev-btn"))^[k] (j % (catalog.length : Int))
      = (j - k) % (catalog.length : Int) := by
  intro k
  induction k with
  | zero => intro j; simp
  | succ k ih =>
      intro j
      rw [Function.iterate_succ_apply]
      have hstep : change_slide catalog (some "prev-btn") (j % (catalog.length : Int))
          = ((j - 1) % (catalog.length : Int)) := by
        rw [change_slide, if_pos rfl]
        rw [show j % (catalog.length : Int) - 1 = j % (catalog.length : Int) + (-1) by ring,
          Int.emod_add_emod]
        rfl
      rw [hstep, ih (j - 1)]
      congr 1
      push_cast
      ring

/-- C3: applying the next button, or the prev button, exactly N times (N the
catalog length) returns any in-range slide index to its original value. -/
theorem change_slide_cyclic (catalog : List SlideDef) (idx : Int)
    (h0 : 0 ≤ idx) (hN : idx < (catalog.length : Int)) :
    (change_slide catalog (some "next-btn"))^[catalog.length] idx = idx ∧
    (change_slide catalog (some "prev-btn"))^[catalog.length] idx = idx := by
  have hidx : idx % (catalog.length : Int) = idx := Int.emod_eq_of_lt h0 hN
  constructor
  · rw [← hidx, iterate_next catalog catalog.length idx, hidx, emod_add_len, hidx]
  · rw [← hidx, iterate_prev catalog catalog.length idx, hidx, emod_sub_len, hidx]

/-- C4: selecting the empty entity id is a no-op on the selected-coin store,
and any non-empty id replaces the stored value; in particular "ethereum"
does. -/
theorem select_entity_rules (current id : String) (hid : id ≠ "") :
    apply_coin_event current "" = current ∧
    apply_coin_event current id = id ∧
    apply_coin_event current "ethereum" = "ethereum" := by
  refine ⟨rfl, ?_, rfl⟩
  simp [apply_coin_event, update_coin, hid]

/-- C4 witness: evaluated with a stored "bitcoin" and the id "ethereum". -/
theorem select_entity_rules_witness :
    apply_coin_event "bitcoin" "" = "bitcoin" ∧
    apply_coin_event "bitcoin" "ethereum" = "ethereum" ∧
    apply_coin_event "bitcoin" "ethereum" = "ethereum" :=
  select_entity_rules "bitcoin" "ethereum" (by decide)

/-- C7: the view composer is deterministic: identical historical data, slide
index and selected coin yield identical (title, figure, selector) triples. -/
theorem update_slide_deterministic (hist1 hist2 : List HistRow) (idx1 idx2 : Nat)
    (coin1 coin2 : String) (hh : hist1 = hist2) (hi : idx1 = idx2) (hc : coin1 = coin2) :
    update_slide hist1 idx1 coin1 = update_slide hist2 idx2 coin2 := by
  rw [hh, hi, hc]

/-- C7 witness: two identical concrete calls agree. -/
theorem update_slide_deterministic_witness :
    update_slide [] 7 "bitcoin" = update_slide [] 7 "bitcoin" :=
  update_slide_deterministic [] [] 7 7 "bitcoin" "bitcoin" rfl rfl rfl

/-- C8: the sidebar toggle is an involution on the stored visibility flag. -/
theorem toggle_sidebar_involutive (n m : Nat) (current : Bool) :
    toggle_sidebar m (toggle_sidebar n current) = current := by
  cases current <;> rfl

/-- C9: the catalog has exactly 15 slides; the slides without a precomputed
chart, and equally the selector-visible slides, are exactly indices 7, 8, 9;
the realtime menu links jump to 0..6, the historical ones to 7..14, and every
menu link jumps inside [0, 15). -/
theorem catalog_shape :
    chart_items.length = 15 ∧
    (List.range chart_items.length).filter
        (fun i => ((chart_items[i]?).bind SlideDef.fig).isNone) = [7, 8, 9] ∧
    (List.range chart_items.length).filter
        (fun i => match update_slide [] i "bitcoin" with
          | some (_, _, b) => b
          | none => false) = [7, 8, 9] ∧
    realtime_link_ids.map (fun s => set_slide (some s)) = (List.range 7).map some ∧
    historical_link_ids.map (fun s => set_slide (some s))
      = (List.range 8).map (fun i => some (7 + i)) ∧
    (all_link_ids.all (fun s => match set_slide (some s) with
      | some j => decide (j < chart_items.length)
      | none => false)) = true := by
  decide

/-- C1 witness: evaluated at slide index 3 on the app's catalog. -/
theorem change_slide_wraps_witness :
    change_slide chart_items (some "prev-btn") 3
      = ((3 : Int) + (-1) + (chart_items.length : Int)) % (chart_items.length : Int) ∧
    change_slide chart_items (some "next-btn") 3
      = ((3 : Int) + 1 + (chart_items.length : Int)) % (chart_items.length : Int) ∧
    change_slide (chart_items.take 10) (some "next-btn") 9 = 0 ∧
    change_slide (chart_items.take 10) (some "prev-btn") 0 = 9 :=
  change_slide_wraps chart_items 3 (by decide) (by decide) (by decide)

/-- C3 witness: 15 presses of either button from slide 3 return to slide 3. -/
theorem change_slide_cyclic_witness :
    (change_slide chart_items (some "next-btn"))^[chart_items.length] 3 = 3 ∧
    (change_slide chart_items (some "prev-btn"))^[chart_items.length] 3 = 3 :=
  change_slide_cyclic chart_items 3 (by decide) (by decide)

/-- Every menu link resolves to a defined jump target below the catalog
length. -/
lemma menu_targets_in_range :
    ∀ s ∈ all_link_ids, (set_slide (some s)).isSome = true
      ∧ (set_slide (some s)).getD 0 < chart_items.length := by
  decide

/-- One valid event keeps the slide index inside [0, 15). -/
lemma nav_apply_in_range (idx : Int) (e : NavEvent)
    (h0 : 0 ≤ idx) (hN : idx < (chart_items.length : Int)) (he : valid_event e = true) :
    0 ≤ nav_apply idx e ∧ nav_apply idx e < (chart_items.length : Int) := by
  have hnz : ((chart_items.length : Int)) ≠ 0 := by decide
  have hpos : (0 : Int) < (chart_items.length : Int) := by decide
  cases e with
  | prevClick =>
      have h : nav_apply idx NavEvent.prevClick = (idx - 1) % (chart_items.length : Int) := by
        show change_slide chart_items (some "prev-btn") idx = _
        rw [change_slide, if_pos rfl]
      rw [h]
      exact ⟨Int.emod_nonneg _ hnz, Int.emod_lt_of_pos _ hpos⟩
  | nextClick =>
      have h : nav_apply idx NavEvent.nextClick = (idx + 1) % (chart_items.length : Int) := by
        show change_slide chart_items (some "next-btn") idx = _
        rw [change_slide, if_neg (by decide), if_pos rfl]
      rw [h]
      exact ⟨Int.emod_nonneg _ hnz, Int.emod_lt_of_pos _ hpos⟩
  | menuClick s =>
      have hs : s ∈ all_link_ids := List.mem_of_elem_eq_true he
      obtain ⟨hsome, hlt⟩ := menu_targets_in_range s hs
      cases hset : set_slide (some s) with
      | none => rw [hset] at hsome; cases hsome
      | some j =>
          have hj : j < chart_items.length := by
            rw [hset] at hlt
            simpa using hlt
          have h : nav_apply idx (NavEvent.menuClick s) = (j : Int) := by
            show (match set_slide (some s) with
              | some j => (j : Int)
              | none => idx) = (j : Int)
            rw [hset]
          rw [h]
          exact ⟨Int.natCast_nonneg j, by exact_mod_cast hj⟩

/-- Processing any list of valid events from an in-range index stays in
range. -/
lemma foldl_nav_in_range (evs : List NavEvent) :
    ∀ idx : Int, 0 ≤ idx → idx < (chart_items.length : Int) →
      (∀ e ∈ evs, valid_event e = true) →
      0 ≤ evs.foldl nav_apply idx ∧ evs.foldl nav_apply idx < (chart_items.length : Int) := by
  induction evs with
  | nil =>
      intro idx h0 hN _
      exact ⟨h0, hN⟩
  | cons e es ih =>
      intro idx h0 hN hv
      rw [List.foldl_cons]
      obtain ⟨h0n, hNn⟩ := nav_apply_in_range idx e h0 hN (hv e (List.mem_cons_self e es))
      exact ih (nav_apply idx e) h0n hNn (fun x hx => hv x (List.mem_cons_of_mem e hx))

/-- C2: starting from the initial stored index 0, any sequence of prev and
next presses and sidebar menu clicks keeps the slide index inside [0, N). -/
theorem slide_index_invariant (evs : List NavEvent)
    (hv : ∀ e ∈ evs, valid_event e = true) :
    0 ≤ run_events evs ∧ run_events evs < (chart_items.length : Int) :=
  foldl_nav_in_range evs 0 (by decide) (by decide) hv

/-- C2 witness: a concrete sequence (jump to slide 12, prev, next, prev)
stays in range. -/
theorem slide_index_invariant_witness :
    0 ≤ run_events [NavEvent.menuClick ['h', 'i', 's', '-', '5'], NavEvent.prevClick,
        NavEvent.nextClick, NavEvent.prevClick] ∧
    run_events [NavEvent.menuClick ['h', 'i', 's', '-', '5'], NavEvent.prevClick,
        NavEvent.nextClick, NavEvent.prevClick] < (chart_items.length : Int) :=
  slide_index_invariant _ (by decide)

/-- Slides carrying a precomputed chart are never dropdown slides. -/
lemma fig_some_not_dropdown : ∀ i : Fin chart_items.length,
    ((chart_items.get i).fig).isSome = true →
      (([7, 8, 9] : List Nat).contains i.val) = false := by
  decide

/-- update_slide on a non-dropdown index passes the stored title and chart
through unchanged, hiding the selector. -/
lemma update_slide_passthrough (hist : List HistRow) (coin : String) (idx : Nat)
    (slide : SlideDef) (hs : chart_items[idx]? = some slide)
    (hnd : (([7, 8, 9] : List Nat).contains idx) = false) :
    update_slide hist idx coin = some (slide.title, slide.fig, false) := by
  simp only [update_slide, hs, hnd]
  simp

/-- C5: a slide with a precomputed chart is rendered with exactly its stored
title and chart and no selector; concretely, after the menu jump rt-3 lands
on slide 3, that slide's stored title and chart are returned with the
selector hidden. -/
theorem resolve_precomputed (hist : List HistRow) (coin : String) (idx : Nat)
    (slide : SlideDef) (f : Fig)
    (hs : chart_items[idx]? = some slide) (hf : slide.fig = some f) :
    update_slide hist idx coin = some (slide.title, some f, false) ∧
    set_slide (some ['r', 't', '-', '3']) = some 3 ∧
    update_slide hist 3 coin
      = some ("Price Change % in 24h",
          some (Fig.pxHistogram "price_change_percentage_24h" 50), false) := by
  obtain ⟨hidx, hget⟩ := List.getElem?_eq_some.mp hs
  have hg2 : chart_items.get ⟨idx, hidx⟩ = slide := by
    rw [List.get_eq_getElem]
    exact hget
  have hnd : (([7, 8, 9] : List Nat).contains idx) = false := by
    apply fig_some_not_dropdown ⟨idx, hidx⟩
    rw [hg2, hf]
    rfl
  refine ⟨?_, by decide, ?_⟩
  · rw [update_slide_passthrough hist coin idx slide hs hnd, hf]
  · rfl

/-- C5 witness: evaluated on an empty historical table at slide 0 with the
default coin. -/
theorem resolve_precomputed_witness :
    update_slide [] 0 "bitcoin"
      = some ("Market Cap Distribution", some (Fig.pxHistogram "market_cap" 50), false) ∧
    set_slide (some ['r', 't', '-', '3']) = some 3 ∧
    update_slide [] 3 "bitcoin"
      = some ("Price Change % in 24h",
          some (Fig.pxHistogram "price_change_percentage_24h" 50), false) :=
  resolve_precomputed [] "bitcoin" 0
    ⟨"Market Cap Distribution", some (Fig.pxHistogram "market_cap" 50)⟩
    (Fig.pxHistogram "market_cap" 50) rfl rfl

/-- C6: on each of the three parametric slides, a selected entity absent
from the historical table yields the selector and a line chart built from
the empty filtered subset, with no failure. -/
theorem resolve_absent_entity (hist : List HistRow) (coin : String)
    (habsent : ∀ r ∈ hist, r.id ≠ coin) :
    update_slide hist 7 coin = some ("Price Over Time",
      some (Fig.pxLine [] "timestamp" "price" (coin ++ " Price Over Time")), true) ∧
    update_slide hist 8 coin = some ("Market Cap Over Time",
      some (Fig.pxLine [] "timestamp" "market_cap" (coin ++ " Market Cap Over Time")), true) ∧
    update_slide hist 9 coin = some ("Volume Over Time",
      some (Fig.pxLine [] "timestamp" "total_volume" (coin ++ " Volume Over Time")), true) := by
  have hfil : hist.filter (fun r => r.id == coin) = [] := by
    rw [List.filter_eq_nil_iff]
    intro r hr
    simpa using habsent r hr
  have h7 : chart_items[7]? = some ⟨"Price Over Time", none⟩ := rfl
  have h8 : chart_items[8]? = some ⟨"Market Cap Over Time", none⟩ := rfl
  have h9 : chart_items[9]? = some ⟨"Volume Over Time", none⟩ := rfl
  refine ⟨?_, ?_, ?_⟩
  · simp [update_slide, h7, hfil]
  · simp [update_slide, h8, hfil]
  · simp [update_slide, h9, hfil]

/-- C6 witness: a one-row bitcoin table with the absent coin "dogecoin". -/
theorem resolve_absent_entity_witness :
    update_slide [⟨"bitcoin", 0, 1, 2, 3, 4⟩] 7 "dogecoin" = some ("Price Over Time",
      some (Fig.pxLine [] "timestamp" "price" ("dogecoin" ++ " Price Over Time")), true) ∧
    update_slide [⟨"bitcoin", 0, 1, 2, 3, 4⟩] 8 "dogecoin" = some ("Market Cap Over Time",
      some (Fig.pxLine [] "timestamp" "market_cap" ("dogecoin" ++ " Market Cap Over Time")), true) ∧
    update_slide [⟨"bitcoin", 0, 1, 2, 3, 4⟩] 9 "dogecoin" = some ("Volume Over Time",
      some (Fig.pxLine [] "timestamp" "total_volume" ("dogecoin" ++ " Volume Over Time")), true) :=
  resolve_absent_entity [⟨"bitcoin", 0, 1, 2, 3, 4⟩] "dogecoin" (by decide)

/-- Python max over a nonempty list returns a member whose key is maximal. -/
lemma pymax_spec (mtime : String → Int) :
    ∀ (fs : List String) (f : String),
      (fs.foldl (fun best y => if mtime best < mtime y then y else best) f) ∈ f :: fs ∧
      ∀ g ∈ f :: fs,
        mtime g ≤ mtime (fs.foldl (fun best y => if mtime best < mtime y then y else best) f) := by
  intro fs
  induction fs with
  | nil =>
      intro f
      refine ⟨List.mem_cons_self f [], ?_⟩
      intro g hg
      rw [List.mem_singleton.mp hg]
      exact le_refl (mtime f)
  | cons y ys ih =>
      intro f
      rw [List.foldl_cons]
      by_cases hcmp : mtime f < mtime y
      · rw [if_pos hcmp]
        obtain ⟨hmem, hle⟩ := ih y
        refine ⟨List.mem_cons_of_mem f hmem, ?_⟩
        intro g hg
        rcases List.mem_cons.mp hg with hg | hg
        · rw [hg]
          exact le_trans (le_of_lt hcmp) (hle y (List.mem_cons_self y ys))
        · exact hle g hg
      · rw [if_neg hcmp]
        obtain ⟨hmem, hle⟩ := ih f
        refine ⟨?_, ?_⟩
        · rcases List.mem_cons.mp hmem with hg | hg
          · rw [hg]
            exact List.mem_cons_self f (y :: ys)
          · exact List.mem_cons_of_mem f (List.mem_cons_of_mem y hg)
        · intro g hg
          rcases List.mem_cons.mp hg with hg | hg
          · rw [hg]
            exact hle f (List.mem_cons_self f ys)
          rcases List.mem_cons.mp hg with hg | hg
          · rw [hg]
            exact le_trans (le_of_not_lt hcmp) (hle f (List.mem_cons_self f ys))
          · exact hle g (List.mem_cons_of_mem f hg)

/-- C10: get_latest_file raises FileNotFoundError exactly when the glob
result is empty (with the source's message), and otherwise returns a matching
file whose modification time is maximal among all matches. -/
theorem get_latest_file_spec (path_pattern : String) (files : List String)
    (mtime : String → Int) :
    ((∃ e, get_latest_file path_pattern files mtime = Except.error e) ↔ files = []) ∧
    get_latest_file path_pattern [] mtime
      = Except.error ("No files found for pattern: " ++ path_pattern) ∧
    ∀ f, get_latest_file path_pattern files mtime = Except.ok f →
      f ∈ files ∧ ∀ g ∈ files, mtime g ≤ mtime f := by
  refine ⟨⟨?_, ?_⟩, rfl, ?_⟩
  · rintro ⟨e, he⟩
    cases files with
    | nil => rfl
    | cons x xs => exact absurd he (by simp [get_latest_file])
  · rintro rfl
    exact ⟨_, rfl⟩
  · intro f hf
    cases files with
    | nil => exact absurd hf (by simp [get_latest_file])
    | cons x xs =>
        have hx : f = xs.foldl (fun best y => if mtime best < mtime y then y else best) x := by
          have h := hf
          simp only [get_latest_file, Except.ok.injEq] at h
          exact h.symm
        obtain ⟨hmem, hle⟩ := pymax_spec mtime xs x
        rw [hx]
        exact ⟨hmem, hle⟩

/-- C10 witness: on the match list ["a", "bb"] with the key s.length, the
returned file "bb" is a member of the matches. -/
theorem get_latest_file_spec_witness : "bb" ∈ ["a", "bb"] :=
  ((get_latest_file_spec "p" ["a", "bb"] (fun s => (s.length : Int))).2.2 "bb" rfl).1

example : pySplitOn '-' ['r', 't', '-', '3'] = [['r', 't'], ['3']] := by decide
example : set_slide (some ['r', 't', '-', '3']) = some 3 := by decide
example : set_slide (some ['h', 'i', 's', '-', '5']) = some 12 := by decide
example : natChars 7 = ['7'] := by decide
example : all_link_ids.length = 15 := by decide
example : change_slide chart_items (some "next-btn") 14 = 0 := by decide
example : change_slide chart_items (some "prev-btn") 0 = 14 := by decide
example : update_slide [] 3 "bitcoin" =
    some ("Price Change % in 24h", some (Fig.pxHistogram "price_change_percentage_24h" 50), false) := by decide
example : update_slide [] 7 "bitcoin" =
    some ("Price Over Time", some (Fig.pxLine [] "timestamp" "price" "bitcoin Price Over Time"), true) := by decide
example : get_latest_file "p" ["a", "bb"] (fun s => (s.length : Int)) = Except.ok "bb" := rfl
